import Mathlib

/-!
Shallow embedding of `src/stress-daemon.c` (the stress-ng daemon stressor).

The two C functions `daemons()` and `stress_daemon()` are modelled as
trace-driven executable functions: every interaction with the operating
system or the harness (fork results, read results, the keep-running flag)
is an event consumed from an input list, and the observable effects
(backoff sleeps, sentinel writes, counter increments, descriptor closes,
waitpid calls, diagnostics) are recorded in a result structure.
-/

namespace StressDaemon

/-- Linux errno value `EAGAIN`, tested by the spawning loop of `daemons()`. -/
def EAGAIN : Nat := 11

/-- Linux errno value `ENOMEM`, tested by the spawning loop of `daemons()`. -/
def ENOMEM : Nat := 12

/-- Linux errno value `EINTR`, tested by the read loop of `stress_daemon()`. -/
def EINTR : Nat := 4

/-- The stop signal used by the stressor (`SIGALRM`, 14 on Linux). -/
def SIGALRM : Nat := 14

/-- The C macro `#define MAX_BACKOFF (10000)`. -/
def MAX_BACKOFF : Nat := 10000

/-- Exit status `EXIT_SUCCESS` (0). -/
def EXIT_SUCCESS : Nat := 0

/-- Exit status `EXIT_FAILURE` (1). -/
def EXIT_FAILURE : Nat := 1

/-- Backoff update performed after a transient fork failure in `daemons()`:
`backoff += 100; if (backoff > MAX_BACKOFF) backoff = MAX_BACKOFF;`. -/
def nextBackoff (b : Nat) : Nat :=
  if b + 100 > MAX_BACKOFF then MAX_BACKOFF else b + 100

/-- Disposition of one signal number in the process's signal table. -/
inductive SigDisposition where
  | dfl
  | stopHandler
  | other (n : Nat)

/-- Modelled from the spec: `stress_sig_stop_stressing` is harness code not
under `src/`; per the spec it is the stop-signal registration primitive
("on signal S, set the keep-running predicate false"), so its effect on the
signal-disposition table is to install the stop handler for `SIGALRM`. -/
def registerStopHandler (t : Nat → SigDisposition) : Nat → SigDisposition :=
  fun i => if i = SIGALRM then SigDisposition.stopHandler else t i

/-- The full-catalog reset in `daemons()`:
`for (i = 0; i < MAX_SIGNUM; i++) (void)signal(i, SIG_DFL);`
After the loop, every signal number below `maxSignum` has the default
disposition and every other entry is unchanged. -/
def resetAllSignals (maxSignum : Nat) (t : Nat → SigDisposition) :
    Nat → SigDisposition :=
  fun i => if i < maxSignum then SigDisposition.dfl else t i

/-- Signal-disposition table after the INIT phase of `daemons()`: first
`stress_sig_stop_stressing(args->name, SIGALRM)` registers the stop
handler, then the full-catalog reset loop runs.  `maxSignum` is the C
macro `MAX_SIGNUM` (NSIG, _NSIG or 256, host-specific). -/
def daemonsInitSigTable (maxSignum : Nat) (t : Nat → SigDisposition) :
    Nat → SigDisposition :=
  resetAllSignals maxSignum (registerStopHandler t)

/-- `daemon_wait_pid(pid, daemon_wait)`: calls `waitpid` exactly when
`daemon_wait` is true.  The returned boolean records whether `waitpid`
was invoked. -/
def daemon_wait_pid (daemonWait : Bool) : Bool := daemonWait

/-- Outcome of one `fork()` in the spawning loop of `daemons()`, as seen
along the process lineage the trace follows.  On failure, `errno` is
recorded.  On success the trace follows either the calling process
(`parent`) or the newly created descendant (`child`, carrying the return
values of that descendant's `chdir("/")`, `stress_drop_capabilities` and
`write(fd, buf, 1)` calls; the capability-drop return value is discarded
by the code via `VOID_RET`). -/
inductive ForkOutcome where
  | fail (errno : Nat)
  | child (chdirRet : Int) (dropCapsRet : Int) (writeRet : Int)
  | parent

/-- One top-of-loop step of `while (keep_stressing_flag())` in `daemons()`:
either the flag is false (`stop`) or it is true and a `fork()` is
attempted with the given outcome (`iter`). -/
inductive DEvent where
  | stop
  | iter (f : ForkOutcome)

/-- How the spawning loop of `daemons()` ended: while-condition false
(`keepFalse`, also used when the event trace is exhausted), parent-side
break after a successful fork (`doneParent`), `goto tidy` on a
non-transient fork failure (`forkAborted`), or the descendant error path
`err2:`/`err:` after a failed chdir or a short write (`childAbandoned`). -/
inductive DEnd where
  | keepFalse
  | doneParent
  | forkAborted
  | childAbandoned

/-- Observable effects of one execution of the spawning loop of
`daemons()` along one process lineage.  `sleeps` lists the arguments of
the `shim_usleep_interruptible(backoff)` calls in order; `sentinels`
counts successful one-byte sentinel writes; `forkCalls` counts `fork()`
attempts along the lineage; `parentForks` counts parent-side breaks;
`nullFdsClosed` covers `fds[0..2]` (the null-device descriptors) and
`channelFdClosedInside` the channel write end `fd` (closed inside
`daemons()` only on the `err:` path; on `tidy:` paths it is closed later
by the worker branch of `stress_daemon()`). -/
structure DaemonsRun where
  sleeps : List Nat
  sentinels : Nat
  forkCalls : Nat
  parentForks : Nat
  waited : Bool
  nullFdsClosed : Bool
  channelFdClosedInside : Bool
  endKind : DEnd

/-- Result of the `tidy:` exit path of `daemons()`: closes `fds[2]`,
`fds[1]`, `fds[0]` and returns; the channel write end stays open. -/
def tidyRun (endKind : DEnd) (waited : Bool) : DaemonsRun :=
  { sleeps := [], sentinels := 0, forkCalls := 0, parentForks := 0,
    waited := waited, nullFdsClosed := true, channelFdClosedInside := false,
    endKind := endKind }

/-- Result of the `err2:` exit path of `daemons()` taken by an abandoned
descendant: closes `fds[2]`, `fds[1]`, `fds[0]` and the channel write end
`fd`, then returns (the descendant then terminates via
`shim_exit_group(0)` in the worker branch of `stress_daemon()`). -/
def errRun : DaemonsRun :=
  { sleeps := [], sentinels := 0, forkCalls := 0, parentForks := 0,
    waited := false, nullFdsClosed := true, channelFdClosedInside := true,
    endKind := DEnd.childAbandoned }

/-- The spawning loop of `daemons()` (lines 99-144), driven by an event
trace, starting from the given current `backoff` value.  Mirrors the C
control flow: transient fork failure (`EAGAIN`/`ENOMEM`) sleeps for the
current backoff, updates it and continues; any other fork failure does
`goto tidy`; a successful fork followed in the parent waits iff
`daemon_wait` and breaks; a successful fork followed in the descendant
runs `chdir("/")`, `umask(0)`, `stress_drop_capabilities` (result
ignored) and the one-byte sentinel write, abandoning the descendant via
`err2:` when the chdir fails or the write size differs from 1, and
otherwise continuing the same loop in the descendant. -/
def daemonsLoop (daemonWait : Bool) (backoff : Nat) :
    List DEvent → DaemonsRun
  | [] => tidyRun DEnd.keepFalse false
  | DEvent.stop :: _ => tidyRun DEnd.keepFalse false
  | DEvent.iter (ForkOutcome.fail e) :: rest =>
    if e = EAGAIN ∨ e = ENOMEM then
      let r := daemonsLoop daemonWait (nextBackoff backoff) rest
      { r with sleeps := backoff :: r.sleeps, forkCalls := r.forkCalls + 1 }
    else
      { tidyRun DEnd.forkAborted false with forkCalls := 1 }
  | DEvent.iter (ForkOutcome.child chdirRet _ writeRet) :: rest =>
    if chdirRet < 0 then { errRun with forkCalls := 1 }
    else if writeRet ≠ 1 then { errRun with forkCalls := 1 }
    else
      let r := daemonsLoop daemonWait backoff rest
      { r with sentinels := r.sentinels + 1, forkCalls := r.forkCalls + 1 }
  | DEvent.iter ForkOutcome.parent :: _ =>
    { tidyRun DEnd.doneParent (daemon_wait_pid daemonWait) with
      parentForks := 1, forkCalls := 1 }

/-- `daemons()` entered with a successfully completed INIT phase: the
local `uint64_t backoff = 100;` makes every invocation start the spawning
loop with backoff 100. -/
def daemons (daemonWait : Bool) (events : List DEvent) : DaemonsRun :=
  daemonsLoop daemonWait 100 events

/-- Result of one `read(fds[0], buf, 1)` in the Orchestrator: `bytes n`
for a non-negative return value `n` (0 or 1 for a one-byte request) and
`fail errno` for a negative return value with the given `errno`. -/
inductive ReadResult where
  | bytes (n : Nat)
  | fail (errno : Nat)

/-- Observable effects of the Orchestrator's read loop: the number of
`inc_counter` calls, whether `close(fds[0])` ran inside the loop, whether
`pr_dbg` was emitted, and whether the loop exited on a failed read. -/
structure ReadLoopResult where
  counter : Nat
  readEndClosed : Bool
  dbgLogged : Bool
  exitedByError : Bool

/-- The Orchestrator's do-while read loop (lines 189-205), driven by a
trace of read results paired with the value of `keep_stressing(args)`
sampled at the bottom of that iteration.  Mirrors the C control flow: a
negative read closes the read end, logs a debug message unless `errno`
is `EINTR`, and breaks; any non-negative read (one byte or zero bytes)
falls through to `inc_counter(args)` and the loop continues while the
keep flag holds.  An exhausted trace is read as the loop being over. -/
def readLoop : List (ReadResult × Bool) → ReadLoopResult
  | [] =>
    { counter := 0, readEndClosed := false, dbgLogged := false,
      exitedByError := false }
  | (ReadResult.fail e, _) :: _ =>
    { counter := 0, readEndClosed := true,
      dbgLogged := if e = EINTR then false else true, exitedByError := true }
  | (ReadResult.bytes _, keep) :: rest =>
    if keep then
      let r := readLoop rest
      { r with counter := r.counter + 1 }
    else
      { counter := 1, readEndClosed := false, dbgLogged := false,
        exitedByError := false }

/-- One resolution step of the `again:` fork label in `stress_daemon()`:
either `fork()` failed with the given `errno` (with `keep` the value
`keep_stressing(args)` would report there), or it succeeded and the
Orchestrator continues in the parent branch (`ok`); the worker branch
never returns (it terminates via `shim_exit_group(0)` after running
`daemons`, which is modelled separately). -/
inductive OForkEvent where
  | fail (errno : Nat) (keep : Bool)
  | ok

/-- Input oracle for one call of `stress_daemon()`: whether
`stress_sig_stop_stressing` succeeded, whether `pipe(fds)` succeeded, the
fork-resolution trace for the `again:` label, the read-loop trace, and
the `daemon-wait` setting. -/
structure SDInput where
  sigOk : Bool
  pipeOk : Bool
  forkEvents : List OForkEvent
  readEvents : List (ReadResult × Bool)
  daemonWait : Bool

/-- Observable result of `stress_daemon()`: exit status, final run
counter, whether the pipe was created, the number of worker `fork()`
calls, whether each channel end is still open when the function returns,
whether `pr_fail` ran, and whether `waitpid` was invoked on the worker.
`exhausted` marks the modelling artifact of an empty fork trace. -/
structure SDResult where
  status : Nat
  counter : Nat
  pipeCreated : Bool
  forkCalls : Nat
  readEndOpen : Bool
  writeEndOpen : Bool
  failReported : Bool
  waited : Bool
  exhausted : Bool

/-- The `again:` retry loop of `stress_daemon()` (lines 168-208), run with
the pipe already created.  A failed fork retries when the harness policy
`stress_redo_fork(errno)` (abstracted as `redo`) says so; otherwise, when
`keep_stressing(args)` is already false it does `goto finish` and returns
`EXIT_SUCCESS` with both pipe ends still open, and when the run is still
active it reports the failure, closes both pipe ends and returns
`EXIT_FAILURE`.  On fork success the parent closes the write end, runs
the read loop, then `daemon_wait_pid(pid, daemon_wait)` and returns
`EXIT_SUCCESS`; the read end is still open at return unless the read
loop closed it. -/
def forkRetryLoop (redo : Nat → Bool) (daemonWait : Bool)
    (readEvents : List (ReadResult × Bool)) : List OForkEvent → SDResult
  | [] =>
    { status := EXIT_SUCCESS, counter := 0, pipeCreated := true,
      forkCalls := 0, readEndOpen := true, writeEndOpen := true,
      failReported := false, waited := false, exhausted := true }
  | OForkEvent.fail e keep :: rest =>
    if redo e then
      let r := forkRetryLoop redo daemonWait readEvents rest
      { r with forkCalls := r.forkCalls + 1 }
    else if keep then
      { status := EXIT_FAILURE, counter := 0, pipeCreated := true,
        forkCalls := 1, readEndOpen := false, writeEndOpen := false,
        failReported := true, waited := false, exhausted := false }
    else
      { status := EXIT_SUCCESS, counter := 0, pipeCreated := true,
        forkCalls := 1, readEndOpen := true, writeEndOpen := true,
        failReported := false, waited := false, exhausted := false }
  | OForkEvent.ok :: _ =>
    let r := readLoop readEvents
    { status := EXIT_SUCCESS, counter := r.counter, pipeCreated := true,
      forkCalls := 1, readEndOpen := !r.readEndClosed,
      writeEndOpen := false, failReported := false,
      waited := daemon_wait_pid daemonWait, exhausted := false }

/-- The Orchestrator entry point `stress_daemon()` (lines 150-214):
reads the `daemon-wait` setting, registers the stop-signal handler
(returning `EXIT_FAILURE` at once when that fails), creates the pipe
(reporting via `pr_fail` and returning `EXIT_FAILURE` when that fails),
and otherwise runs the `again:` fork/read logic. -/
def stress_daemon (redo : Nat → Bool) (inp : SDInput) : SDResult :=
  if inp.sigOk then
    if inp.pipeOk then
      forkRetryLoop redo inp.daemonWait inp.readEvents inp.forkEvents
    else
      { status := EXIT_FAILURE, counter := 0, pipeCreated := false,
        forkCalls := 0, readEndOpen := false, writeEndOpen := false,
        failReported := true, waited := false, exhausted := false }
  else
    { status := EXIT_FAILURE, counter := 0, pipeCreated := false,
      forkCalls := 0, readEndOpen := false, writeEndOpen := false,
      failReported := false, waited := false, exhausted := false }

/-- Input for a run whose stop-signal registration and pipe creation both
succeeded, so control reaches the `again:` fork label. -/
def liveInput (fe : List OForkEvent) (re : List (ReadResult × Bool))
    (dw : Bool) : SDInput :=
  { sigOk := true, pipeOk := true, forkEvents := fe, readEvents := re,
    daemonWait := dw }

end StressDaemon

namespace StressDaemon

/-- In every execution of the spawning loop, at most one fork resolves on
the parent side: the parent branch breaks out of the loop at once. -/
theorem daemonsLoop_parentForks_le_one (dw : Bool) :
    ∀ (evs : List DEvent) (b : Nat), (daemonsLoop dw b evs).parentForks ≤ 1 := by
  intro evs
  induction evs with
  | nil => intro b; simp [daemonsLoop, tidyRun]
  | cons ev rest ih =>
    intro b
    cases ev with
    | stop => simp [daemonsLoop, tidyRun]
    | iter f =>
      cases f with
      | fail e =>
        by_cases he : e = EAGAIN ∨ e = ENOMEM
        · simpa [daemonsLoop, he] using ih (nextBackoff b)
        · simp [daemonsLoop, he, tidyRun]
      | child c d w =>
        by_cases hc : c < 0
        · simp [daemonsLoop, hc, errRun]
        · by_cases hw : w = 1
          · simpa [daemonsLoop, hc, hw] using ih b
          · simp [daemonsLoop, hc, hw, errRun]
      | parent => simp [daemonsLoop, tidyRun]

/-- The i-th backoff sleep of the spawning loop started at backoff `b` is
the i-th iterate of the backoff update applied to `b`. -/
theorem daemonsLoop_sleeps_get (dw : Bool) :
    ∀ (evs : List DEvent) (b i : Nat),
      i < (daemonsLoop dw b evs).sleeps.length →
      (daemonsLoop dw b evs).sleeps[i]? = some (nextBackoff^[i] b) := by
  intro evs
  induction evs with
  | nil => intro b i h; simp [daemonsLoop, tidyRun] at h
  | cons ev rest ih =>
    intro b i h
    cases ev with
    | stop => simp [daemonsLoop, tidyRun] at h
    | iter f =>
      cases f with
      | fail e =>
        by_cases he : e = EAGAIN ∨ e = ENOMEM
        · cases i with
          | zero => simp [daemonsLoop, he]
          | succ i =>
            simp only [daemonsLoop, he, if_true, List.getElem?_cons_succ]
            rw [Function.iterate_succ_apply]
            apply ih (nextBackoff b) i
            simp [daemonsLoop, he] at h
            omega
        · simp [daemonsLoop, he, tidyRun] at h
      | child c d w =>
        by_cases hc : c < 0
        · simp [daemonsLoop, hc, errRun] at h
        · by_cases hw : w = 1
          · simp only [daemonsLoop, hc, hw] at h ⊢
            simp at h ⊢
            exact ih b i h
          · simp [daemonsLoop, hc, hw, errRun] at h
      | parent => simp [daemonsLoop, tidyRun] at h

/-- Closed form of the backoff iterates from the initial value 100. -/
theorem nextBackoff_iterate (i : Nat) :
    nextBackoff^[i] 100 = min (100 * (i + 1)) 10000 := by
  induction i with
  | zero => decide
  | succ i ih =>
    rw [Function.iterate_succ_apply', ih]
    simp only [nextBackoff, MAX_BACKOFF]
    split <;> omega

/-- The Orchestrator's read loop closes the read end exactly when it
exits on a failed read. -/
theorem readLoop_closed_iff_error :
    ∀ re, (readLoop re).readEndClosed = (readLoop re).exitedByError := by
  intro re
  induction re with
  | nil => rfl
  | cons ev rest ih =>
    obtain ⟨r, keep⟩ := ev
    cases r with
    | fail e => rfl
    | bytes n =>
      cases keep with
      | false => rfl
      | true => simpa [readLoop] using ih

end StressDaemon

namespace StressDaemon

/-- C1: claimed — the run counter is incremented only when the read
returns exactly one byte, and a zero-byte read (end-of-stream) terminates
the loop uncounted.  The code does the opposite: evaluated on a trace of
three zero-byte reads, the read loop counts every one of them (counter 3
although no sentinel byte was transferred), does not exit on them, and
ends only when the keep flag turns false. -/
theorem c1_zero_byte_reads_counted :
    readLoop [(ReadResult.bytes 0, true), (ReadResult.bytes 0, true),
      (ReadResult.bytes 0, false)] =
    { counter := 3, readEndClosed := false, dbgLogged := false,
      exitedByError := false } := rfl

/-- C2 counterexample: a read failing with `EINTR` is not retried.  On a
trace whose first read fails with `EINTR` and whose later reads would
succeed, the loop terminates at once with the read end closed and the
counter at 0 — the subsequent available reads are never consumed, while
the claim's retry would have counted them. -/
theorem c2_eintr_terminates_cex :
    readLoop [(ReadResult.fail EINTR, true), (ReadResult.bytes 1, true),
      (ReadResult.bytes 1, false)] =
    { counter := 0, readEndClosed := true, dbgLogged := false,
      exitedByError := true } := rfl

/-- C2 amended: every failing read — `EINTR` included — terminates the
read loop immediately with the read end closed; `EINTR` differs only in
that the debug diagnostic is suppressed. -/
theorem c2_read_error_always_terminates (e : Nat) (b : Bool)
    (rest : List (ReadResult × Bool)) :
    readLoop ((ReadResult.fail e, b) :: rest) =
    { counter := 0, readEndClosed := true,
      dbgLogged := if e = EINTR then false else true,
      exitedByError := true } := rfl

/-- C3 counterexample: the spawning loop does not terminate after the
first successful fork when the lineage is followed into the descendant.
On a single `daemons` invocation whose first fork succeeds (descendant
side, sentinel written), the loop goes on to fork twice more: three fork
calls and two completed sentinel writes within one invocation, so the
repetition of completed daemons does come from the Daemonizer lineage
continuing to spawn after a success. -/
theorem c3_descendant_respawns_cex :
    daemons false [DEvent.iter (ForkOutcome.child 0 0 1),
      DEvent.iter (ForkOutcome.child 0 0 1), DEvent.iter ForkOutcome.parent] =
    { sleeps := [], sentinels := 2, forkCalls := 3, parentForks := 1,
      waited := false, nullFdsClosed := true, channelFdClosedInside := false,
      endKind := DEnd.doneParent } := rfl

/-- C3 amended: after a successful fork the process acting as parent
terminates the spawning loop immediately in DONE_PARENT (waiting for the
descendant iff `daemon-wait`), and no invocation performs more than one
parent-side break; but the newly forked descendant continues the same
spawning loop after a successful sentinel write, so the repetition across
many completed daemons comes from the descendant chain (consumed by the
Orchestrator's counting loop), not only from the number of worker
invocations. -/
theorem c3_parent_break_descendant_continues :
    (∀ (dw : Bool) (b : Nat) (rest : List DEvent),
        daemonsLoop dw b (DEvent.iter ForkOutcome.parent :: rest) =
        { tidyRun DEnd.doneParent (daemon_wait_pid dw) with
          parentForks := 1, forkCalls := 1 }) ∧
    (∀ (dw : Bool) (evs : List DEvent), (daemons dw evs).parentForks ≤ 1) ∧
    (∀ (dw : Bool) (b : Nat) (d : Int) (rest : List DEvent),
        daemonsLoop dw b (DEvent.iter (ForkOutcome.child 0 d 1) :: rest) =
        { daemonsLoop dw b rest with
          sentinels := (daemonsLoop dw b rest).sentinels + 1,
          forkCalls := (daemonsLoop dw b rest).forkCalls + 1 }) := by
  refine ⟨fun dw b rest => rfl, fun dw evs => daemonsLoop_parentForks_le_one dw evs 100,
    fun dw b d rest => ?_⟩
  simp [daemonsLoop]

/-- C4: the backoff of the Daemonizer's spawning loop starts at 100 on
every invocation of `daemons`, and the sequence of sleeps performed after
transient fork failures follows `next(delay) = min(delay + 100, 10000)`:
the i-th sleep equals `min(100 * (i + 1), 10000)`, hence the delays are
non-decreasing, grow in steps of 100 until the cap, and never exceed
10000. -/
theorem c4_backoff_schedule :
    (∀ (dw : Bool) (evs : List DEvent) (i : Nat),
        i < (daemons dw evs).sleeps.length →
        (daemons dw evs).sleeps[i]? = some (min (100 * (i + 1)) 10000)) ∧
    (∀ d : Nat, nextBackoff d = min (d + 100) 10000) := by
  constructor
  · intro dw evs i h
    have hg := daemonsLoop_sleeps_get dw evs 100 i h
    rwa [nextBackoff_iterate] at hg
  · intro d
    simp only [nextBackoff, MAX_BACKOFF]
    split <;> omega

/-- C4 witness: on a trace with two transient fork failures, the first
sleep exists and equals `min(100 * 1, 10000) = 100`. -/
theorem c4_backoff_schedule_witness :
    0 < (daemons false [DEvent.iter (ForkOutcome.fail EAGAIN),
      DEvent.iter (ForkOutcome.fail ENOMEM), DEvent.stop]).sleeps.length ∧
    (daemons false [DEvent.iter (ForkOutcome.fail EAGAIN),
      DEvent.iter (ForkOutcome.fail ENOMEM), DEvent.stop]).sleeps[0]? =
      some (min (100 * (0 + 1)) 10000) :=
  ⟨by decide, c4_backoff_schedule.1 false
    [DEvent.iter (ForkOutcome.fail EAGAIN),
      DEvent.iter (ForkOutcome.fail ENOMEM), DEvent.stop] 0 (by decide)⟩

end StressDaemon

namespace StressDaemon

/-- C5 counterexample: the run can end with the channel's read end still
open.  With the worker forked and a single successful one-byte read after
which the keep-running condition is false, `stress_daemon` returns
`EXIT_SUCCESS` with `readEndOpen = true`: the keep-false exit of the read
loop never closes `fds[0]`, contradicting the claim that both ends are
closed on every path on which the run ends. -/
theorem c5_read_end_left_open_cex :
    stress_daemon (fun _ => false)
      { sigOk := true, pipeOk := true, forkEvents := [OForkEvent.ok],
        readEvents := [(ReadResult.bytes 1, false)], daemonWait := false } =
    { status := EXIT_SUCCESS, counter := 1, pipeCreated := true,
      forkCalls := 1, readEndOpen := true, writeEndOpen := false,
      failReported := false, waited := false, exhausted := false } := rfl

/-- C5 amended: once the worker is forked the parent always closes the
write end, but it closes the read end exactly when the read loop exits on
a failed read; when the loop exits because the keep-running condition
becomes false, the read end is still open at return, and on the
non-retryable-fork-failure path taken with keep-running already false
both pipe ends are still open at return. -/
theorem c5_channel_close_paths :
    (∀ (redo : Nat → Bool) (re : List (ReadResult × Bool)) (dw : Bool),
        (stress_daemon redo (liveInput [OForkEvent.ok] re dw)).writeEndOpen
            = false ∧
        (stress_daemon redo (liveInput [OForkEvent.ok] re dw)).readEndOpen
            = !(readLoop re).exitedByError) ∧
    (∀ (redo : Nat → Bool) (e : Nat) (rest : List OForkEvent)
        (re : List (ReadResult × Bool)) (dw : Bool), redo e = false →
        stress_daemon redo (liveInput (OForkEvent.fail e false :: rest) re dw)
            =
        { status := EXIT_SUCCESS, counter := 0, pipeCreated := true,
          forkCalls := 1, readEndOpen := true, writeEndOpen := true,
          failReported := false, waited := false, exhausted := false }) := by
  constructor
  · intro redo re dw
    constructor
    · simp [stress_daemon, liveInput, forkRetryLoop]
    · simp [stress_daemon, liveInput, forkRetryLoop,
        readLoop_closed_iff_error re]
  · intro redo e rest re dw h
    simp [stress_daemon, liveInput, forkRetryLoop, h]

/-- C5 witness for the amended statement: the fork-failure clause applied
to a harness policy that never retries, with the keep-running condition
already false. -/
theorem c5_channel_close_paths_witness :
    (fun _ : Nat => false) 5 = false ∧
    stress_daemon (fun _ => false)
        (liveInput [OForkEvent.fail 5 false] [] false) =
    { status := EXIT_SUCCESS, counter := 0, pipeCreated := true,
      forkCalls := 1, readEndOpen := true, writeEndOpen := true,
      failReported := false, waited := false, exhausted := false } :=
  ⟨rfl, c5_channel_close_paths.2 (fun _ => false) 5 [] [] false rfl⟩

/-- C6: a failed worker fork is retried when the harness policy
`stress_redo_fork` classifies the errno as retryable; otherwise, with the
keep-running condition still true the run reports the failure and returns
`EXIT_FAILURE` with both pipe ends closed, and with the keep-running
condition already false it returns `EXIT_SUCCESS` instead. -/
theorem c6_fork_failure_policy :
    (∀ (redo : Nat → Bool) (e : Nat) (keep : Bool) (rest : List OForkEvent)
        (re : List (ReadResult × Bool)) (dw : Bool), redo e = true →
        stress_daemon redo (liveInput (OForkEvent.fail e keep :: rest) re dw)
            =
        { stress_daemon redo (liveInput rest re dw) with
          forkCalls :=
            (stress_daemon redo (liveInput rest re dw)).forkCalls + 1 }) ∧
    (∀ (redo : Nat → Bool) (e : Nat) (rest : List OForkEvent)
        (re : List (ReadResult × Bool)) (dw : Bool), redo e = false →
        stress_daemon redo (liveInput (OForkEvent.fail e true :: rest) re dw)
            =
        { status := EXIT_FAILURE, counter := 0, pipeCreated := true,
          forkCalls := 1, readEndOpen := false, writeEndOpen := false,
          failReported := true, waited := false, exhausted := false }) ∧
    (∀ (redo : Nat → Bool) (e : Nat) (rest : List OForkEvent)
        (re : List (ReadResult × Bool)) (dw : Bool), redo e = false →
        (stress_daemon redo
          (liveInput (OForkEvent.fail e false :: rest) re dw)).status
            = EXIT_SUCCESS) := by
  refine ⟨fun redo e keep rest re dw h => ?_, fun redo e rest re dw h => ?_,
    fun redo e rest re dw h => ?_⟩ <;>
    simp [stress_daemon, liveInput, forkRetryLoop, h]

end StressDaemon

namespace StressDaemon

/-- C6 witness: one concrete instantiation of each clause of the fork
failure policy — a retrying policy retries, a non-retrying policy with the
run active fails fatally with both ends closed, and a non-retrying policy
with the run already stopped returns success. -/
theorem c6_fork_failure_policy_witness :
    ((fun _ : Nat => true) 11 = true ∧
      stress_daemon (fun _ => true)
          (liveInput [OForkEvent.fail 11 true] [] false) =
      { stress_daemon (fun _ => true) (liveInput [] [] false) with
        forkCalls :=
          (stress_daemon (fun _ => true)
            (liveInput [] [] false)).forkCalls + 1 }) ∧
    ((fun _ : Nat => false) 12 = false ∧
      stress_daemon (fun _ => false)
          (liveInput [OForkEvent.fail 12 true] [] false) =
      { status := EXIT_FAILURE, counter := 0, pipeCreated := true,
        forkCalls := 1, readEndOpen := false, writeEndOpen := false,
        failReported := true, waited := false, exhausted := false }) ∧
    ((fun _ : Nat => false) 12 = false ∧
      (stress_daemon (fun _ => false)
        (liveInput [OForkEvent.fail 12 false] [] false)).status
          = EXIT_SUCCESS) :=
  ⟨⟨rfl, c6_fork_failure_policy.1 (fun _ => true) 11 true [] [] false rfl⟩,
   ⟨rfl, c6_fork_failure_policy.2.1 (fun _ => false) 12 [] [] false rfl⟩,
   ⟨rfl, c6_fork_failure_policy.2.2 (fun _ => false) 12 [] [] false rfl⟩⟩

/-- C7: a descendant whose working-directory change fails or whose
sentinel write does not transfer exactly one byte takes the `err2:` path:
it closes the three null-device descriptors and the channel write end,
writes no sentinel, ends in the abandoned state with the remaining trace
unused (the attempt is not retried), and the Orchestrator's run status
stays `EXIT_SUCCESS` with no failure reported whatever arrives on the
channel. -/
theorem c7_descendant_abandoned :
    (∀ (dw : Bool) (b : Nat) (c d w : Int) (rest : List DEvent), c < 0 →
        daemonsLoop dw b (DEvent.iter (ForkOutcome.child c d w) :: rest) =
        { errRun with forkCalls := 1 }) ∧
    (∀ (dw : Bool) (b : Nat) (c d w : Int) (rest : List DEvent),
        ¬ c < 0 → w ≠ 1 →
        daemonsLoop dw b (DEvent.iter (ForkOutcome.child c d w) :: rest) =
        { errRun with forkCalls := 1 }) ∧
    (∀ (redo : Nat → Bool) (re : List (ReadResult × Bool)) (dw : Bool),
        (stress_daemon redo (liveInput [OForkEvent.ok] re dw)).status
            = EXIT_SUCCESS ∧
        (stress_daemon redo (liveInput [OForkEvent.ok] re dw)).failReported
            = false) := by
  refine ⟨fun dw b c d w rest hc => ?_, fun dw b c d w rest hc hw => ?_,
    fun redo re dw => ?_⟩
  · simp [daemonsLoop, hc]
  · simp [daemonsLoop, hc, hw]
  · constructor <;> simp [stress_daemon, liveInput, forkRetryLoop]

/-- C7 witness: the chdir-failure clause at return value -1 and the
short-write clause at write size 0. -/
theorem c7_descendant_abandoned_witness :
    ((-1 : Int) < 0 ∧
      daemonsLoop false 100 [DEvent.iter (ForkOutcome.child (-1) 0 1)] =
        { errRun with forkCalls := 1 }) ∧
    (¬ (0 : Int) < 0 ∧ (0 : Int) ≠ 1 ∧
      daemonsLoop false 100 [DEvent.iter (ForkOutcome.child 0 0 0)] =
        { errRun with forkCalls := 1 }) :=
  ⟨⟨by decide, c7_descendant_abandoned.1 false 100 (-1) 0 1 [] (by decide)⟩,
   ⟨by decide, by decide,
     c7_descendant_abandoned.2.1 false 100 0 0 0 [] (by decide) (by decide)⟩⟩

/-- C8: when pipe creation fails, `stress_daemon` reports the failure via
`pr_fail` and returns `EXIT_FAILURE`; the counter stays 0, no worker is
forked, and no channel descriptor was ever opened. -/
theorem c8_pipe_creation_failure (redo : Nat → Bool) (fe : List OForkEvent)
    (re : List (ReadResult × Bool)) (dw : Bool) :
    stress_daemon redo
      { sigOk := true, pipeOk := false, forkEvents := fe, readEvents := re,
        daemonWait := dw } =
    { status := EXIT_FAILURE, counter := 0, pipeCreated := false,
      forkCalls := 0, readEndOpen := false, writeEndOpen := false,
      failReported := true, waited := false, exhausted := false } := rfl

/-- C9: when registration of the stop-signal handler fails,
`stress_daemon` returns `EXIT_FAILURE` at once: the pipe is never
created, no process is forked, the counter is never incremented, and no
channel descriptor is ever opened (and no `pr_fail` is issued by this
function on that path). -/
theorem c9_sig_registration_failure (redo : Nat → Bool) (p : Bool)
    (fe : List OForkEvent) (re : List (ReadResult × Bool)) (dw : Bool) :
    stress_daemon redo
      { sigOk := false, pipeOk := p, forkEvents := fe, readEvents := re,
        daemonWait := dw } =
    { status := EXIT_FAILURE, counter := 0, pipeCreated := false,
      forkCalls := 0, readEndOpen := false, writeEndOpen := false,
      failReported := false, waited := false, exhausted := false } := rfl

/-- C10: the full-catalog signal reset of `daemons()` runs after the
stop-signal handler was registered and covers the stop signal itself
(whenever `SIGALRM < MAX_SIGNUM`, true for every host value of NSIG), so
after INIT the stop signal's disposition in the Worker is the default
action, not the registered stop handler — even though registration had
installed the handler first. -/
theorem c10_reset_overrides_stop_handler (t : Nat → SigDisposition)
    (m : Nat) (h : SIGALRM < m) :
    daemonsInitSigTable m t SIGALRM = SigDisposition.dfl ∧
    registerStopHandler t SIGALRM = SigDisposition.stopHandler ∧
    daemonsInitSigTable m t SIGALRM ≠ SigDisposition.stopHandler := by
  refine ⟨?_, ?_, ?_⟩ <;>
    simp [daemonsInitSigTable, resetAllSignals, registerStopHandler, h]

/-- C10 witness: with `MAX_SIGNUM = 64` (NSIG on Linux) and an initially
defaulted table, the stop signal ends up at the default disposition. -/
theorem c10_reset_overrides_stop_handler_witness :
    SIGALRM < 64 ∧
    (daemonsInitSigTable 64 (fun _ => SigDisposition.dfl) SIGALRM =
        SigDisposition.dfl ∧
      registerStopHandler (fun _ => SigDisposition.dfl) SIGALRM =
        SigDisposition.stopHandler ∧
      daemonsInitSigTable 64 (fun _ => SigDisposition.dfl) SIGALRM ≠
        SigDisposition.stopHandler) :=
  ⟨by decide,
    c10_reset_overrides_stop_handler (fun _ => SigDisposition.dfl) 64
      (by decide)⟩

end StressDaemon
